import Mathlib

/-!
Shallow embedding of the Bovali studio front-end (src/services/geminiService.ts
and src/App.tsx): the request/response orchestration layer and the view
controller state, together with theorems settling the specification claims.

Conventions of the embedding:
* A browser `File` is modelled by the data the code actually reads from it:
  its base64-encoded contents (what `fileToBase64` produces) and its MIME type.
* Asynchronous service calls become pure functions taking the network response
  as an explicit argument and returning the outbound request next to the
  `Except`-modelled outcome (`throw` becomes `Except.error`).
* JavaScript string truthiness (empty string is falsy) is modelled explicitly
  where the code relies on it.
* `URL.createObjectURL` results are opaque locator strings supplied as
  arguments; each handler returns the list of locators it passed to
  `URL.revokeObjectURL`, so release behaviour is observable.
-/

deriving instance DecidableEq for Except

namespace Bovali

/-- Model of a browser File: the base64 encoding of its bytes (as produced by
fileToBase64 in geminiService.ts) and its MIME type (`file.type`). -/
structure File where
  bytesB64 : String
  type : String
deriving DecidableEq

/-- Embedding of fileToBase64 (geminiService.ts lines 10-20): reads the file as
a data URL and keeps the part after the comma, i.e. the base64 bytes. -/
def fileToBase64 (f : File) : String := f.bytesB64

/-- Inline binary data of a request/response part. -/
structure InlineData where
  data : String
  mimeType : String
deriving DecidableEq

/-- A content part as in the @google/genai response shape: it may carry inline
binary data and/or text. -/
structure Part where
  inlineData : Option InlineData
  text : Option String
deriving DecidableEq

/-- Content of a response candidate: an ordered list of parts. -/
structure Content where
  parts : List Part
deriving DecidableEq

/-- A response candidate. -/
structure Candidate where
  content : Content
deriving DecidableEq

/-- A GenerateContentResponse: its candidate list (empty list models both a
missing and an empty `candidates` array, which the code treats alike). -/
structure GenerateContentResponse where
  candidates : List Candidate
deriving DecidableEq

/-- Response modalities declared on an outbound request. -/
inductive Modality where
  | IMAGE
  | TEXT
deriving DecidableEq

/-- An outbound generateContent request: model name, ordered parts, declared
response modalities. -/
structure GenRequest where
  model : String
  parts : List Part
  responseModalities : List Modality
deriving DecidableEq

/-- The data URL built from an inline part, exactly as the template literal
`data:$\x7bmimeType\x7d;base64,$\x7bdata\x7d` does. -/
def dataUrlOf (d : InlineData) : String :=
  "data:" ++ d.mimeType ++ ";base64," ++ d.data

/-- JavaScript truthiness of an optional string: present and nonempty. -/
def strTruthy (s : Option String) : Bool :=
  match s with
  | none => false
  | some t => !t.isEmpty

/-- One step of the part-scanning loop of editImageWithPrompt (geminiService.ts
lines 72-79): an inline part overwrites the image accumulator (there is no
break), otherwise a truthy text part overwrites the text accumulator. -/
def editScan (acc : Option String × Option String) (p : Part) :
    Option String × Option String :=
  match p.inlineData with
  | some d => (some (dataUrlOf d), acc.2)
  | none =>
    match p.text with
    | some t => if t.isEmpty then acc else (acc.1, some t)
    | none => acc

/-- The (imageUrl, text) pair extracted from a response by editImageWithPrompt
(geminiService.ts lines 68-80): the first candidate's parts are folded through
the scanning loop. -/
def editExtract (response : GenerateContentResponse) :
    Option String × Option String :=
  match response.candidates with
  | [] => (none, none)
  | c :: _ => c.content.parts.foldl editScan (none, none)

/-- Result type of editImageWithPrompt. -/
structure EditResult where
  imageUrl : Option String
  text : Option String
deriving DecidableEq

/-- Outcome of editImageWithPrompt given a response (geminiService.ts lines
82-89): with no image, throw (including the captured text when present);
otherwise return the pair. A produced image URL is never the empty string, so
the `!imageUrl` truthiness test coincides with the Option match. -/
def editParseResponse (response : GenerateContentResponse) :
    Except String EditResult :=
  match editExtract response with
  | (some u, text) => Except.ok { imageUrl := some u, text := text }
  | (none, some t) =>
    Except.error ("The AI responded but did not return an image: \"" ++ t ++ "\"")
  | (none, none) =>
    Except.error "The AI did not return an image for your edit request."

/-- The full prompt template of editImageWithPrompt (geminiService.ts lines
45-48). -/
def editFullPrompt (prompt : String) : String :=
  "\n            As an expert AI image editor, edit the provided image based on the following instruction, ensuring the result is photorealistic and maintains the original image\x27s context.\n            Instruction: \"" ++ prompt ++ "\"\n        "

/-- The outbound request of editImageWithPrompt (geminiService.ts lines 50-66):
the provided image as an inline part, then the full prompt, with IMAGE and TEXT
modalities. -/
def editRequest (base64Image mimeType prompt : String) : GenRequest :=
  { model := "gemini-2.5-flash-image-preview"
    parts := [ { inlineData := some { data := base64Image, mimeType := mimeType }, text := none },
               { inlineData := none, text := some (editFullPrompt prompt) } ]
    responseModalities := [Modality.IMAGE, Modality.TEXT] }

/-- Embedding of editImageWithPrompt (geminiService.ts lines 39-97): the
request it sends and, given the network response, its outcome. -/
def editImageWithPrompt (base64Image mimeType prompt : String)
    (response : GenerateContentResponse) : GenRequest × Except String EditResult :=
  (editRequest base64Image mimeType prompt, editParseResponse response)

/-- The first-image search of generateSurfaceDesign (geminiService.ts lines
132-138): the loop breaks at the first inline part. -/
def firstImageUrl (parts : List Part) : Option String :=
  match parts with
  | [] => none
  | p :: rest =>
    match p.inlineData with
    | some d => some (dataUrlOf d)
    | none => firstImageUrl rest

/-- Result type of generateSurfaceDesign and the operations built on it. -/
structure GenResult where
  imageUrl : Option String
deriving DecidableEq

/-- Image URL extracted from a response by generateSurfaceDesign
(geminiService.ts lines 130-139). -/
def genExtract (response : GenerateContentResponse) : Option String :=
  match response.candidates with
  | [] => none
  | c :: _ => firstImageUrl c.content.parts

/-- Outcome of generateSurfaceDesign given a response (geminiService.ts lines
141-145): throws its fixed message when no inline-image part was found. -/
def genParseResponse (response : GenerateContentResponse) :
    Except String GenResult :=
  match genExtract response with
  | some u => Except.ok { imageUrl := some u }
  | none =>
    Except.error "AI failed to generate a new image. Please try a different combination of images or prompt."

/-- The outbound request of generateSurfaceDesign (geminiService.ts lines
105-128): every image as an inline part in order, then the prompt as a text
part, with the IMAGE modality only. -/
def genRequest (prompt : String) (images : List File) : GenRequest :=
  { model := "gemini-2.5-flash-image-preview"
    parts := images.map (fun f => { inlineData := some { data := fileToBase64 f, mimeType := f.type }, text := none }) ++
             [ { inlineData := none, text := some prompt } ]
    responseModalities := [Modality.IMAGE] }

/-- Embedding of generateSurfaceDesign (geminiService.ts lines 100-151): the
request it sends and, given the network response, its outcome. -/
def generateSurfaceDesign (prompt : String) (images : List File)
    (response : GenerateContentResponse) : GenRequest × Except String GenResult :=
  (genRequest prompt images, genParseResponse response)

/-- Surface types of the generator studio. -/
inductive SurfaceType where
  | Flooring
  | Walls
deriving DecidableEq

/-- The literal name of a surface type. -/
def SurfaceType.str : SurfaceType → String
  | .Flooring => "Flooring"
  | .Walls => "Walls"

/-- Embedding of `surfaceType.toLowerCase()`: lower-case every character. -/
def SurfaceType.toLowerCase (s : SurfaceType) : String :=
  String.mk (s.str.data.map Char.toLower)

/-- Extraction types of the extractor studio. -/
inductive ExtractionType where
  | Pattern
  | Material
deriving DecidableEq

/-- The literal name of an extraction type. -/
def ExtractionType.str : ExtractionType → String
  | .Pattern => "Pattern"
  | .Material => "Material"

/-- Dimension instruction shared by applyPatternAndMaterial and
applyPatternOnly (geminiService.ts lines 188-190 and 216-218); the ternary
tests string truthiness. -/
def patternDimInstruction (tileDimensions : Option String) : String :=
  match tileDimensions with
  | some d =>
    if d.isEmpty then "" else
      "The \"Pattern Image\" represents a single tile with the dimensions " ++ d ++ ". Use this information to accurately scale the pattern on the surface."
  | none => ""

/-- Prompt template of applyPatternAndMaterial (geminiService.ts lines
192-202). -/
def patternAndMaterialPrompt (surfaceType : SurfaceType)
    (tileDimensions : Option String) : String :=
  "\n        You are an AI assistant for Bovali, a luxury interior design brand.\n        Your task is to modify the primary \"Render Shot\" image.\n        Identify the " ++
  surfaceType.toLowerCase ++
  " in the \"Render Shot\".\n        Apply the visual pattern from the \"Pattern Image\" to the " ++
  surfaceType.toLowerCase ++
  ".\n        Then, apply the texture, material properties (like gloss, reflection, texture), and color palette from the \"Material Image\" to the same " ++
  surfaceType.toLowerCase ++
  ".\n        " ++
  patternDimInstruction tileDimensions ++
  "\n        The final result must be a single, photorealistic image that seamlessly integrates the new pattern and material onto the specified surface in the original render shot, maintaining realistic lighting, shadows, and perspective.\n        Do not add any text or other artifacts to the image. Output only the modified image.\n        The images are provided after this prompt.\n    "

/-- Prompt template of applyPatternOnly (geminiService.ts lines 219-229). -/
def patternOnlyPrompt (surfaceType : SurfaceType)
    (tileDimensions : Option String) : String :=
  "\n        You are an AI assistant for Bovali, a luxury interior design brand.\n        Your task is to modify the primary \"Render Shot\" image.\n        Identify the " ++
  surfaceType.toLowerCase ++
  " in the \"Render Shot\".\n        Apply ONLY the visual pattern from the \"Pattern Image\" to the " ++
  surfaceType.toLowerCase ++
  ".\n        " ++
  patternDimInstruction tileDimensions ++
  "\n        The original material, texture, lighting, and colors of the surface in the \"Render Shot\" should be preserved as much as possible.\n        The final result must be a single, photorealistic image that seamlessly integrates the new pattern onto the specified surface in the original render shot, maintaining realistic lighting, shadows, and perspective.\n        Do not add any text or other artifacts to the image. Output only the modified image.\n        The images are provided after this prompt.\n    "

/-- Prompt template of applyMaterialOnly (geminiService.ts lines 241-250). -/
def materialOnlyPrompt (surfaceType : SurfaceType) : String :=
  "\n        You are an AI assistant for Bovali, a luxury interior design brand.\n        Your task is to modify the primary \"Render Shot\" image.\n        Identify the " ++
  surfaceType.toLowerCase ++
  " in the \"Render Shot\".\n        Apply ONLY the texture, material properties (like gloss, reflection, texture), and color palette from the \"Material Image\" to the " ++
  surfaceType.toLowerCase ++
  ".\n        If the original surface had a pattern, it should be preserved if possible, but rendered with the new material properties.\n        The final result must be a single, photorealistic image that seamlessly integrates the new material onto the specified surface in the original render shot, maintaining realistic lighting, shadows, and perspective.\n        Do not add any text or other artifacts to the image. Output only the modified image.\n        The images are provided after this prompt.\n    "

/-- Dimension instruction of extractAndProcessImage (geminiService.ts lines
158-160). -/
def extractDimInstruction (dimensions : Option String) : String :=
  match dimensions with
  | some d =>
    if d.isEmpty then "" else
      "The user has specified that the subject in the photo has real-world dimensions of " ++ d ++ ". Ensure the output image accurately reflects this scale."
  | none => ""

/-- Prompt template of extractAndProcessImage (geminiService.ts lines
162-175). -/
def extractPrompt (extractionType : ExtractionType)
    (dimensions : Option String) : String :=
  "\n        You are an expert AI assistant specializing in creating professional, catalogue-ready images for the luxury design brand Bovali.\n        Your task is to process the user-submitted photograph and extract a specific element.\n        Analyze the image and correct for any perspective distortion, angled views, uneven lighting, and color inconsistencies.\n        The final result must be a clean, seamless, front-facing, high-resolution image of the requested element, suitable for a professional design catalogue.\n\n        Extraction Type: Extract the " ++
  extractionType.str ++
  ".\n        - If \x27Pattern\x27, isolate the primary repeating pattern.\n        - If \x27Material\x27, isolate the material\x27s texture, color, and finish, ignoring distinct patterns unless they are part of the material itself (like wood grain).\n        \n        " ++
  extractDimInstruction dimensions ++
  "\n\n        Output only the processed image. Do not add text or other artifacts. The image is provided after this prompt.\n    "

/-- Embedding of extractAndProcessImage (geminiService.ts lines 153-178). -/
def extractAndProcessImage (sourceImage : File)
    (extractionType : ExtractionType) (dimensions : Option String)
    (response : GenerateContentResponse) : GenRequest × Except String GenResult :=
  generateSurfaceDesign (extractPrompt extractionType dimensions) [sourceImage] response

/-- Embedding of applyPatternAndMaterial (geminiService.ts lines 181-208). -/
def applyPatternAndMaterial (renderShot pattern material : File)
    (surfaceType : SurfaceType) (tileDimensions : Option String)
    (response : GenerateContentResponse) : GenRequest × Except String GenResult :=
  generateSurfaceDesign (patternAndMaterialPrompt surfaceType tileDimensions)
    [renderShot, pattern, material] response

/-- Embedding of applyPatternOnly (geminiService.ts lines 210-234). -/
def applyPatternOnly (renderShot pattern : File)
    (surfaceType : SurfaceType) (tileDimensions : Option String)
    (response : GenerateContentResponse) : GenRequest × Except String GenResult :=
  generateSurfaceDesign (patternOnlyPrompt surfaceType tileDimensions)
    [renderShot, pattern] response

/-- Embedding of applyMaterialOnly (geminiService.ts lines 236-255). -/
def applyMaterialOnly (renderShot material : File)
    (surfaceType : SurfaceType)
    (response : GenerateContentResponse) : GenRequest × Except String GenResult :=
  generateSurfaceDesign (materialOnlyPrompt surfaceType)
    [renderShot, material] response

/-- Active tab of the studio (App.tsx line 23). -/
inductive ActiveTab where
  | generator
  | extractor
deriving DecidableEq

/-- Generation mode of the generator studio (App.tsx line 21). -/
inductive GenerationMode where
  | PatternAndMaterial
  | PatternOnly
  | MaterialOnly
deriving DecidableEq

/-- Units of the dimension selectors (App.tsx line 22). -/
inductive TileUnit where
  | cm
  | inches
deriving DecidableEq

/-- The literal name of a tile unit. -/
def TileUnit.str : TileUnit → String
  | .cm => "cm"
  | .inches => "inches"

/-- Sender of a chat message (App.tsx lines 14-18). -/
inductive Sender where
  | user
  | bot
deriving DecidableEq

/-- A chat message (App.tsx lines 14-18). -/
structure Message where
  id : Nat
  text : String
  sender : Sender
deriving DecidableEq

/-- An upload slot: the selected file and its local preview locator
(types.ts ImageState). -/
structure ImageState where
  file : Option File
  previewUrl : Option String
deriving DecidableEq

/-- The empty image state used to clear a slot. -/
def emptyImageState : ImageState := { file := none, previewUrl := none }

/-- The state held by the App component (App.tsx lines 101-132), plus a
fresh-handle supply `nextChatId` so that distinct chat handle creations are
observable. -/
structure AppState where
  activeTab : ActiveTab
  surfaceType : SurfaceType
  generationMode : GenerationMode
  renderShot : ImageState
  pattern : ImageState
  material : ImageState
  outputImage : Option String
  loading : Bool
  error : Option String
  tileWidth : String
  tileHeight : String
  tileUnit : TileUnit
  sourceImage : ImageState
  extractionType : ExtractionType
  processedImage : Option String
  isProcessing : Bool
  processingError : Option String
  sourceWidth : String
  sourceHeight : String
  sourceUnit : TileUnit
  isChatOpen : Bool
  isBotTyping : Bool
  messages : List Message
  chatRef : Option Nat
  nextChatId : Nat
deriving DecidableEq

/-- The chat initialisation effect (App.tsx lines 134-138): create the chat
handle only when none exists yet. -/
def initChatEffect (s : AppState) : AppState :=
  match s.chatRef with
  | some _ => s
  | none => { s with chatRef := some s.nextChatId, nextChatId := s.nextChatId + 1 }

/-- The tab-change effect body (App.tsx lines 140-157): entering the generator
tab resets the extractor panel, entering the extractor tab resets the
generator panel. No preview locator is revoked here. -/
def tabResetEffect (s : AppState) : AppState :=
  if s.activeTab = ActiveTab.generator then
    { s with sourceImage := emptyImageState, processedImage := none,
             processingError := none, sourceWidth := "", sourceHeight := "" }
  else
    { s with renderShot := emptyImageState, pattern := emptyImageState,
             material := emptyImageState, outputImage := none, error := none,
             tileWidth := "", tileHeight := "" }

/-- Switching the active tab: React re-runs the effect only when the value
actually changes. Returns the new state and the list of locators passed to
URL.revokeObjectURL (none here). -/
def setActiveTab (s : AppState) (t : ActiveTab) : AppState × List String :=
  if t = s.activeTab then (s, [])
  else (tabResetEffect { s with activeTab := t }, [])

/-- The generation-mode-change effect body (App.tsx lines 159-168): reset all
generator slots, dimensions, error and output. No preview locator is revoked
here. -/
def modeResetEffect (s : AppState) : AppState :=
  { s with renderShot := emptyImageState, pattern := emptyImageState,
           material := emptyImageState, tileWidth := "", tileHeight := "",
           error := none, outputImage := none }

/-- Switching the generation mode: the effect runs only when the value
changes. Returns the new state and the list of revoked locators (none). -/
def setGenerationMode (s : AppState) (m : GenerationMode) : AppState × List String :=
  if m = s.generationMode then (s, [])
  else (modeResetEffect { s with generationMode := m }, [])

/-- Scan for the first colon of parts[0] as the regex /:(.*?);/ does; the
characters between that colon and the following semicolon form the MIME type
(data URLs contain no newline, so the regex dot behaves as any-char). -/
def takeUntilSemi : List Char → Option (List Char)
  | [] => none
  | c :: rest =>
    if c = ';' then some [] else (takeUntilSemi rest).map (fun l => c :: l)

/-- Locate the first colon and cut at the following semicolon. -/
def mimeMatch : List Char → Option (List Char)
  | [] => none
  | c :: rest => if c = ':' then takeUntilSemi rest else mimeMatch rest

/-- The comma split of `dataUrl.split(",")`, on character lists. -/
def splitOnComma : List Char → List (List Char)
  | [] => [[]]
  | c :: rest =>
    if c = ',' then [] :: splitOnComma rest
    else
      match splitOnComma rest with
      | h :: t => (c :: h) :: t
      | [] => [[c]]

/-- Embedding of parseDataUrl (App.tsx lines 170-179): split on commas, match
the MIME type in parts[0], pair it with parts[1] (an absent parts[1], which
cannot arise for the well-formed data URLs the app stores, is modelled as the
empty string). Throwing becomes `Except.error`. -/
def parseDataUrl (dataUrl : String) : Except String (String × String) :=
  let parts := splitOnComma dataUrl.data
  match mimeMatch (parts.headD []) with
  | none => Except.error "Invalid data URL format"
  | some mimeChars => Except.ok (String.mk mimeChars, String.mk (parts.getD 1 []))

/-- An observable outbound call made by a handler: a generateContent request,
an editImageWithPrompt invocation, or a chat sendMessage turn on a handle. -/
inductive NetworkCall where
  | generate (request : GenRequest)
  | edit (base64Image mimeType prompt : String)
  | chatSend (handle : Nat) (message : String)
deriving DecidableEq

/-- The four upload slots wired to handleImageSelect / handleImageRemove. -/
inductive Slot where
  | renderShot
  | pattern
  | material
  | sourceImage
deriving DecidableEq

/-- Read a slot from the state. -/
def getSlot (s : AppState) : Slot → ImageState
  | .renderShot => s.renderShot
  | .pattern => s.pattern
  | .material => s.material
  | .sourceImage => s.sourceImage

/-- Write a slot of the state. -/
def setSlot (s : AppState) (sl : Slot) (v : ImageState) : AppState :=
  match sl with
  | .renderShot => { s with renderShot := v }
  | .pattern => { s with pattern := v }
  | .material => { s with material := v }
  | .sourceImage => { s with sourceImage := v }

/-- Embedding of handleImageSelect (App.tsx lines 225-243): revoke the
replaced preview locator when present, store the file with its fresh locator
`objectUrl` (the URL.createObjectURL result), and reset the outputs and errors
of both panels. -/
def handleImageSelect (s : AppState) (sl : Slot) (f : File)
    (objectUrl : String) : AppState × List String :=
  let revoked := match (getSlot s sl).previewUrl with
    | some u => [u]
    | none => []
  let s1 := setSlot s sl { file := some f, previewUrl := some objectUrl }
  ({ s1 with outputImage := none, error := none,
             processedImage := none, processingError := none }, revoked)

/-- Embedding of handleImageRemove (App.tsx lines 245-256): revoke the
removed preview locator when present, clear the slot, and reset the outputs
and errors of both panels. -/
def handleImageRemove (s : AppState) (sl : Slot) : AppState × List String :=
  let revoked := match (getSlot s sl).previewUrl with
    | some u => [u]
    | none => []
  let s1 := setSlot s sl emptyImageState
  ({ s1 with outputImage := none, error := none,
             processedImage := none, processingError := none }, revoked)

/-- The tile dimension string of handleGeneratorSubmit (App.tsx lines
266-269): built only when both width and height are truthy. -/
def tileDimensionsOf (s : AppState) : Option String :=
  if !s.tileWidth.isEmpty && !s.tileHeight.isEmpty then
    some (s.tileWidth ++ " x " ++ s.tileHeight ++ " " ++ s.tileUnit.str)
  else none

/-- Embedding of handleGeneratorSubmit (App.tsx lines 259-308): set loading,
clear error and output, validate the slots the active mode requires (throwing
before any call when one is missing), otherwise run the mode's operation on
the given network response; store the image or the error message and clear
loading. Returns the final state and the outbound calls made. -/
def handleGeneratorSubmit (s : AppState)
    (response : GenerateContentResponse) : AppState × List NetworkCall :=
  let s0 := { s with loading := true, error := none, outputImage := none }
  let dims := tileDimensionsOf s0
  let attempt : Except String (GenRequest × Except String GenResult) :=
    match s0.generationMode with
    | GenerationMode.PatternAndMaterial =>
      match s0.renderShot.file, s0.pattern.file, s0.material.file with
      | some r, some p, some m =>
        Except.ok (applyPatternAndMaterial r p m s0.surfaceType dims response)
      | _, _, _ => Except.error "Please upload all three images for this mode."
    | GenerationMode.PatternOnly =>
      match s0.renderShot.file, s0.pattern.file with
      | some r, some p =>
        Except.ok (applyPatternOnly r p s0.surfaceType dims response)
      | _, _ => Except.error "Please upload a Render Shot and a Pattern Image for this mode."
    | GenerationMode.MaterialOnly =>
      match s0.renderShot.file, s0.material.file with
      | some r, some m =>
        Except.ok (applyMaterialOnly r m s0.surfaceType response)
      | _, _ => Except.error "Please upload a Render Shot and a Material Image for this mode."
  match attempt with
  | Except.error msg => ({ s0 with error := some msg, loading := false }, [])
  | Except.ok (req, res) =>
    match res with
    | Except.ok r =>
      match r.imageUrl with
      | some u =>
        ({ s0 with outputImage := some u, loading := false }, [NetworkCall.generate req])
      | none =>
        ({ s0 with error := some "Failed to generate image. The API did not return an image.",
                   loading := false }, [NetworkCall.generate req])
    | Except.error msg =>
      ({ s0 with error := some msg, loading := false }, [NetworkCall.generate req])

/-- The source dimension string of handleProcessImage (App.tsx lines
335-338). -/
def sourceDimensionsOf (s : AppState) : Option String :=
  if !s.sourceWidth.isEmpty && !s.sourceHeight.isEmpty then
    some (s.sourceWidth ++ " x " ++ s.sourceHeight ++ " " ++ s.sourceUnit.str)
  else none

/-- Embedding of handleProcessImage (App.tsx lines 325-357): return early with
a validation message when no source image is set (leaving the previous
processed image untouched); otherwise run the extraction on the given
response and store the image or the error message. -/
def handleProcessImage (s : AppState)
    (response : GenerateContentResponse) : AppState × List NetworkCall :=
  match s.sourceImage.file with
  | none => ({ s with processingError := some "Please upload an image to process." }, [])
  | some f =>
    let s0 := { s with isProcessing := true, processingError := none,
                       processedImage := none }
    let dims := sourceDimensionsOf s0
    let rr := extractAndProcessImage f s0.extractionType dims response
    match rr.2 with
    | Except.ok r =>
      match r.imageUrl with
      | some u =>
        ({ s0 with processedImage := some u, isProcessing := false },
         [NetworkCall.generate rr.1])
      | none =>
        ({ s0 with processingError := some "Failed to process image. The AI did not return an image.",
                   isProcessing := false }, [NetworkCall.generate rr.1])
    | Except.error msg =>
      ({ s0 with processingError := some msg, isProcessing := false },
       [NetworkCall.generate rr.1])

/-- Embedding of handleSendMessage (App.tsx lines 181-223). The user message
is appended with id `now` (Date.now()); when a truthy output image exists and
the generator tab is active, the turn becomes an editImageWithPrompt call on
the parsed output image, otherwise it is sent through the chat handle when
one exists (and does nothing further when none does). `response` is the
network response an edit call would receive and `chatText` the text a chat
turn would receive. -/
def handleSendMessage (s : AppState) (message : String) (now : Nat)
    (response : GenerateContentResponse) (chatText : String) :
    AppState × List NetworkCall :=
  let s0 := { s with
    messages := s.messages ++ [Message.mk now message Sender.user],
    isBotTyping := true, error := none }
  if strTruthy s0.outputImage = true ∧ s0.activeTab = ActiveTab.generator then
    match parseDataUrl (s0.outputImage.getD "") with
    | Except.error e =>
      ({ s0 with
          messages := s0.messages ++ [Message.mk (now + 1) e Sender.bot],
          isBotTyping := false }, [])
    | Except.ok (mimeType, base64) =>
      let call := NetworkCall.edit base64 mimeType message
      match editParseResponse response with
      | Except.ok r =>
        match r.imageUrl with
        | some u =>
          let botText := match r.text with
            | some t => if t.isEmpty then "Of course. Here is the updated design." else t
            | none => "Of course. Here is the updated design."
          ({ s0 with
              outputImage := some u,
              messages := s0.messages ++ [Message.mk (now + 1) botText Sender.bot],
              isBotTyping := false }, [call])
        | none =>
          ({ s0 with
              messages := s0.messages ++ [Message.mk (now + 1) "The AI did not return a new image for your edit request." Sender.bot],
              isBotTyping := false }, [call])
      | Except.error e =>
        ({ s0 with
            messages := s0.messages ++ [Message.mk (now + 1) e Sender.bot],
            isBotTyping := false }, [call])
  else
    match s0.chatRef with
    | some h =>
      ({ s0 with
          messages := s0.messages ++ [Message.mk (now + 1) chatText Sender.bot],
          isBotTyping := false }, [NetworkCall.chatSend h message])
    | none => (s0, [])

/-! Statement vocabulary: positional descriptions of response part lists, and
an executable substring test, used to phrase the claims. -/

/-- The first part carrying inline data, if any. -/
def firstInline : List Part → Option InlineData
  | [] => none
  | p :: rest =>
    match p.inlineData with
    | some d => some d
    | none => firstInline rest

/-- The last part carrying inline data, if any. -/
def lastInline : List Part → Option InlineData
  | [] => none
  | p :: rest =>
    match lastInline rest with
    | some d => some d
    | none => p.inlineData

/-- The last truthy text among parts that carry no inline data (the text the
editImageWithPrompt loop ends up holding). -/
def lastTruthyText : List Part → Option String
  | [] => none
  | p :: rest =>
    match lastTruthyText rest with
    | some t => some t
    | none =>
      match p.inlineData with
      | some _ => none
      | none =>
        match p.text with
        | some t => if t.isEmpty then none else some t
        | none => none

/-- Char-list version of the substring test: needle occurs at the head. -/
def listStartsWith : List Char → List Char → Bool
  | [], _ => true
  | _ :: _, [] => false
  | a :: n, b :: h => a = b && listStartsWith n h

/-- Char-list substring occurrence test. -/
def listContainsSub (needle hay : List Char) : Bool :=
  match hay with
  | [] => needle.isEmpty
  | _ :: t => listStartsWith needle hay || listContainsSub needle t

/-- Executable substring test on strings. -/
def strContains (hay needle : String) : Bool :=
  listContainsSub needle.data hay.data

/-- Whether the active generation mode has an unpopulated required slot
(the condition each branch of handleGeneratorSubmit validates). -/
def missingRequiredSlot (s : AppState) : Bool :=
  match s.generationMode with
  | GenerationMode.PatternAndMaterial =>
    s.renderShot.file.isNone || s.pattern.file.isNone || s.material.file.isNone
  | GenerationMode.PatternOnly =>
    s.renderShot.file.isNone || s.pattern.file.isNone
  | GenerationMode.MaterialOnly =>
    s.renderShot.file.isNone || s.material.file.isNone

/-! Supporting lemmas about the response-scanning functions. -/

/-- The image accumulator of the edit loop ends at the last inline part. -/
theorem foldl_editScan_fst (ps : List Part) (acc : Option String × Option String) :
    (ps.foldl editScan acc).1 =
      match lastInline ps with
      | some d => some (dataUrlOf d)
      | none => acc.1 := by
  induction ps generalizing acc with
  | nil => rfl
  | cons p rest ih =>
    simp only [List.foldl_cons, ih, lastInline]
    cases hrest : lastInline rest with
    | some d => rfl
    | none =>
      cases hp : p.inlineData with
      | some d => simp [editScan, hp]
      | none =>
        cases ht : p.text with
        | some t =>
          by_cases he : t.isEmpty <;> simp [editScan, hp, ht, he]
        | none => simp [editScan, hp, ht]

/-- The text accumulator of the edit loop ends at the last truthy text part. -/
theorem foldl_editScan_snd (ps : List Part) (acc : Option String × Option String) :
    (ps.foldl editScan acc).2 =
      match lastTruthyText ps with
      | some t => some t
      | none => acc.2 := by
  induction ps generalizing acc with
  | nil => rfl
  | cons p rest ih =>
    simp only [List.foldl_cons, ih, lastTruthyText]
    cases hrest : lastTruthyText rest with
    | some t => rfl
    | none =>
      cases hp : p.inlineData with
      | some d => simp [editScan, hp]
      | none =>
        cases ht : p.text with
        | some t =>
          by_cases he : t.isEmpty <;> simp [editScan, hp, ht, he]
        | none => simp [editScan, hp, ht]

/-- The break-at-first loop of generateSurfaceDesign keeps the first inline
part. -/
theorem firstImageUrl_eq (ps : List Part) :
    firstImageUrl ps = (firstInline ps).map dataUrlOf := by
  induction ps with
  | nil => rfl
  | cons p rest ih =>
    cases hp : p.inlineData with
    | some d => simp [firstImageUrl, firstInline, hp]
    | none => simp [firstImageUrl, firstInline, hp, ih]

/-- When every part of every candidate lacks inline data, there is no first
inline part. -/
theorem firstInline_eq_none (ps : List Part)
    (h : ∀ p ∈ ps, p.inlineData = none) : firstInline ps = none := by
  induction ps with
  | nil => rfl
  | cons p rest ih =>
    have hp := h p (List.mem_cons_self p rest)
    simpa [firstInline, hp] using ih (fun q hq => h q (List.mem_cons_of_mem p hq))

/-- When every part lacks inline data, there is no last inline part either. -/
theorem lastInline_eq_none (ps : List Part)
    (h : ∀ p ∈ ps, p.inlineData = none) : lastInline ps = none := by
  induction ps with
  | nil => rfl
  | cons p rest ih =>
    have hp := h p (List.mem_cons_self p rest)
    have hr := ih (fun q hq => h q (List.mem_cons_of_mem p hq))
    simp [lastInline, hp, hr]

/-- The text editImageWithPrompt ends up holding, per response. -/
def editTextOf (response : GenerateContentResponse) : Option String :=
  match response.candidates with
  | [] => none
  | c :: _ => lastTruthyText c.content.parts

/-! Claim C1. -/

/-- A response whose single candidate carries two inline-image parts. -/
def twoImageResp : GenerateContentResponse :=
  { candidates := [ { content := { parts := [
      { inlineData := some { data := "AAA", mimeType := "image/png" }, text := none },
      { inlineData := some { data := "BBB", mimeType := "image/jpeg" }, text := none } ] } } ] }

/-- Claim C1, counterexample: on a response whose candidate holds two
inline-image parts, editImageWithPrompt returns the image built from the
SECOND part, which differs from the one built from the first part — so it is
not true that, for every orchestrator operation, only the first image-bearing
part is used: the edit loop has no break and later parts overwrite earlier
ones. -/
theorem c1_counterexample :
    (editImageWithPrompt "ORIG" "image/png" "make it brighter" twoImageResp).2 =
      Except.ok { imageUrl := some (dataUrlOf { data := "BBB", mimeType := "image/jpeg" }),
                  text := none } ∧
    dataUrlOf { data := "BBB", mimeType := "image/jpeg" } ≠
      dataUrlOf { data := "AAA", mimeType := "image/png" } := by
  decide

/-- Claim C1, amended: generateSurfaceDesign (used by all four surface
operations) keeps the FIRST inline-image part of the first candidate and
ignores later image parts, while editImageWithPrompt keeps the LAST
inline-image part, each inline part overwriting the one before. -/
theorem c1_amended (cand : Candidate) (rest : List Candidate) :
    genExtract { candidates := cand :: rest } =
      (firstInline cand.content.parts).map dataUrlOf ∧
    (editExtract { candidates := cand :: rest }).1 =
      (lastInline cand.content.parts).map dataUrlOf := by
  constructor
  · simp [genExtract, firstImageUrl_eq]
  · rw [show (editExtract { candidates := cand :: rest }) =
        cand.content.parts.foldl editScan (none, none) from rfl,
      foldl_editScan_fst]
    cases lastInline cand.content.parts <;> simp

/-! Claim C2. -/

/-- A response whose single candidate carries one text part and no image. -/
def textOnlyResp : GenerateContentResponse :=
  { candidates := [ { content := { parts := [
      { inlineData := none, text := some "hello" } ] } } ] }

/-- Claim C2, counterexample: generateSurfaceDesign, given a response carrying
a text part and no image, throws its fixed generic message, which does not
include the text — so it is not true that every orchestrator operation
includes the response text in its error message. -/
theorem c2_counterexample :
    genParseResponse textOnlyResp =
      Except.error "AI failed to generate a new image. Please try a different combination of images or prompt." ∧
    strContains "AI failed to generate a new image. Please try a different combination of images or prompt." "hello" = false := by
  decide

/-- Claim C2, amended: on a response with no inline-image part, every
orchestrator operation throws; editImageWithPrompt includes the captured text
in its message when a truthy text part was present and otherwise uses its
generic message, while generateSurfaceDesign always throws the same generic
no-image message regardless of any text part. -/
theorem c2_amended (resp : GenerateContentResponse)
    (h : ∀ c ∈ resp.candidates, ∀ p ∈ c.content.parts, p.inlineData = none) :
    genParseResponse resp =
      Except.error "AI failed to generate a new image. Please try a different combination of images or prompt." ∧
    (match editTextOf resp with
     | some t =>
       editParseResponse resp =
         Except.error ("The AI responded but did not return an image: \"" ++ t ++ "\"") ∧
       ∃ pre post,
         "The AI responded but did not return an image: \"" ++ t ++ "\"" =
           pre ++ t ++ post
     | none =>
       editParseResponse resp =
         Except.error "The AI did not return an image for your edit request.") := by
  obtain ⟨cands⟩ := resp
  cases cands with
  | nil =>
    exact ⟨rfl, rfl⟩
  | cons c rest =>
    have hc : ∀ p ∈ c.content.parts, p.inlineData = none := h c (by simp)
    have h1 : genExtract ⟨c :: rest⟩ = none := by
      simp [genExtract, firstImageUrl_eq, firstInline_eq_none _ hc]
    have h2 : (editExtract ⟨c :: rest⟩).1 = none := by
      rw [show (editExtract ⟨c :: rest⟩) =
            c.content.parts.foldl editScan (none, none) from rfl,
        foldl_editScan_fst]
      simp [lastInline_eq_none _ hc]
    have h3 : (editExtract ⟨c :: rest⟩).2 = lastTruthyText c.content.parts := by
      rw [show (editExtract ⟨c :: rest⟩) =
            c.content.parts.foldl editScan (none, none) from rfl,
        foldl_editScan_snd]
      cases lastTruthyText c.content.parts <;> simp
    constructor
    · simp [genParseResponse, h1]
    · have hpair : editExtract ⟨c :: rest⟩ =
          (none, lastTruthyText c.content.parts) := by
        rw [show (none, lastTruthyText c.content.parts) =
              ((editExtract ⟨c :: rest⟩).1, (editExtract ⟨c :: rest⟩).2) by rw [h2, h3]]
      cases ht : lastTruthyText c.content.parts with
      | some t =>
        rw [ht] at hpair
        simp only [editTextOf, ht]
        refine ⟨by simp [editParseResponse, hpair],
          "The AI responded but did not return an image: \"", "\"", rfl⟩
      | none =>
        rw [ht] at hpair
        simp only [editTextOf, ht]
        simp [editParseResponse, hpair]

/-- A response whose single candidate carries the text part "hi" only. -/
def hiTextResp : GenerateContentResponse :=
  { candidates := [ { content := { parts := [
      { inlineData := none, text := some "hi" } ] } } ] }

/-- Witness for the amended claim C2, at a concrete text-only response. -/
theorem c2_amended_witness :
    genParseResponse hiTextResp =
      Except.error "AI failed to generate a new image. Please try a different combination of images or prompt." ∧
    (match editTextOf hiTextResp with
     | some t =>
       editParseResponse hiTextResp =
         Except.error ("The AI responded but did not return an image: \"" ++ t ++ "\"") ∧
       ∃ pre post,
         "The AI responded but did not return an image: \"" ++ t ++ "\"" =
           pre ++ t ++ post
     | none =>
       editParseResponse hiTextResp =
         Except.error "The AI did not return an image for your edit request.") :=
  c2_amended hiTextResp (by decide)

/-! Claim C3. -/

/-- The initial App state (the useState defaults of App.tsx lines 101-132),
with a fresh-handle supply starting at 0. -/
def initialAppState : AppState :=
  { activeTab := ActiveTab.generator
    surfaceType := SurfaceType.Flooring
    generationMode := GenerationMode.PatternAndMaterial
    renderShot := emptyImageState
    pattern := emptyImageState
    material := emptyImageState
    outputImage := none
    loading := false
    error := none
    tileWidth := ""
    tileHeight := ""
    tileUnit := TileUnit.cm
    sourceImage := emptyImageState
    extractionType := ExtractionType.Pattern
    processedImage := none
    isProcessing := false
    processingError := none
    sourceWidth := ""
    sourceHeight := ""
    sourceUnit := TileUnit.cm
    isChatOpen := false
    isBotTyping := false
    messages := [Message.mk 1 "Hello! How can I assist you with your Bovali design today?" Sender.bot]
    chatRef := none
    nextChatId := 0 }

/-- The empty response used by witnesses whose path makes no network call. -/
def emptyResp : GenerateContentResponse := { candidates := [] }

/-- Claim C3: when the active generation mode has an unpopulated required slot
(all three slots for PatternAndMaterial, render shot and pattern for
PatternOnly, render shot and material for MaterialOnly), submitting makes no
network call, surfaces a validation error, and produces no output image; and
when the extractor has no source image, processing makes no network call,
surfaces its validation message, and leaves the processed image untouched. -/
theorem c3_validation (s : AppState) (resp : GenerateContentResponse) :
    (missingRequiredSlot s = true →
      (handleGeneratorSubmit s resp).2 = [] ∧
      (handleGeneratorSubmit s resp).1.error.isSome = true ∧
      (handleGeneratorSubmit s resp).1.outputImage = none) ∧
    (s.sourceImage.file = none →
      (handleProcessImage s resp).2 = [] ∧
      (handleProcessImage s resp).1.processingError = some "Please upload an image to process." ∧
      (handleProcessImage s resp).1.processedImage = s.processedImage) := by
  constructor
  · intro hm
    cases hmode : s.generationMode with
    | PatternAndMaterial =>
      simp only [missingRequiredSlot, hmode] at hm
      cases hr : s.renderShot.file <;> cases hp : s.pattern.file <;>
        cases hmm : s.material.file <;>
        simp [handleGeneratorSubmit, hmode, hr, hp, hmm] at hm ⊢
    | PatternOnly =>
      simp only [missingRequiredSlot, hmode] at hm
      cases hr : s.renderShot.file <;> cases hp : s.pattern.file <;>
        simp [handleGeneratorSubmit, hmode, hr, hp] at hm ⊢
    | MaterialOnly =>
      simp only [missingRequiredSlot, hmode] at hm
      cases hr : s.renderShot.file <;> cases hmm : s.material.file <;>
        simp [handleGeneratorSubmit, hmode, hr, hmm] at hm ⊢
  · intro hsrc
    simp [handleProcessImage, hsrc]

/-- Witness for claim C3: the initial state has no images at all, so both the
generator submission and the extractor processing fail validation with no
outbound call. -/
theorem c3_validation_witness :
    ((handleGeneratorSubmit initialAppState emptyResp).2 = [] ∧
     (handleGeneratorSubmit initialAppState emptyResp).1.error.isSome = true ∧
     (handleGeneratorSubmit initialAppState emptyResp).1.outputImage = none) ∧
    ((handleProcessImage initialAppState emptyResp).2 = [] ∧
     (handleProcessImage initialAppState emptyResp).1.processingError = some "Please upload an image to process." ∧
     (handleProcessImage initialAppState emptyResp).1.processedImage = initialAppState.processedImage) :=
  ⟨(c3_validation initialAppState emptyResp).1 (by decide),
   (c3_validation initialAppState emptyResp).2 (by decide)⟩

/-! Claim C4. -/

/-- A state sitting on the extractor tab with a populated source image and its
live preview locator. -/
def c4State : AppState :=
  { initialAppState with
    activeTab := ActiveTab.extractor
    sourceImage := { file := some { bytesB64 := "SRC", type := "image/png" },
                     previewUrl := some "blob:source-preview" } }

/-- Claim C4, counterexample: switching from the extractor tab to the
generator tab clears the populated source-image slot, yet the revocation list
is empty — URL.revokeObjectURL is never invoked on the populated preview
locator, contradicting the release half of the claim. -/
theorem c4_counterexample :
    c4State.sourceImage.previewUrl = some "blob:source-preview" ∧
    (setActiveTab c4State ActiveTab.generator).1.sourceImage = emptyImageState ∧
    (setActiveTab c4State ActiveTab.generator).2 = [] := by
  decide

/-- Claim C4, amended: switching the active tab resets every image slot,
output image and error of the panel being left, and switching the generation
mode resets all generator slots, output and error — but neither reset effect
invokes URL.revokeObjectURL, so previously populated preview locators are
dropped without being released. -/
theorem c4_amended (s : AppState) (t : ActiveTab) (m : GenerationMode)
    (ht : t ≠ s.activeTab) (hm : m ≠ s.generationMode) :
    ((setActiveTab s t).2 = [] ∧
     (t = ActiveTab.generator →
       (setActiveTab s t).1.sourceImage = emptyImageState ∧
       (setActiveTab s t).1.processedImage = none ∧
       (setActiveTab s t).1.processingError = none) ∧
     (t = ActiveTab.extractor →
       (setActiveTab s t).1.renderShot = emptyImageState ∧
       (setActiveTab s t).1.pattern = emptyImageState ∧
       (setActiveTab s t).1.material = emptyImageState ∧
       (setActiveTab s t).1.outputImage = none ∧
       (setActiveTab s t).1.error = none)) ∧
    ((setGenerationMode s m).2 = [] ∧
     (setGenerationMode s m).1.renderShot = emptyImageState ∧
     (setGenerationMode s m).1.pattern = emptyImageState ∧
     (setGenerationMode s m).1.material = emptyImageState ∧
     (setGenerationMode s m).1.outputImage = none ∧
     (setGenerationMode s m).1.error = none) := by
  cases t <;>
    simp [setActiveTab, setGenerationMode, tabResetEffect, modeResetEffect, ht, hm]

/-- Witness for the amended claim C4, switching from the extractor tab back to
the generator tab and switching the mode to PatternOnly. -/
theorem c4_amended_witness :
    ((setActiveTab c4State ActiveTab.generator).2 = [] ∧
     (ActiveTab.generator = ActiveTab.generator →
       (setActiveTab c4State ActiveTab.generator).1.sourceImage = emptyImageState ∧
       (setActiveTab c4State ActiveTab.generator).1.processedImage = none ∧
       (setActiveTab c4State ActiveTab.generator).1.processingError = none) ∧
     (ActiveTab.generator = ActiveTab.extractor →
       (setActiveTab c4State ActiveTab.generator).1.renderShot = emptyImageState ∧
       (setActiveTab c4State ActiveTab.generator).1.pattern = emptyImageState ∧
       (setActiveTab c4State ActiveTab.generator).1.material = emptyImageState ∧
       (setActiveTab c4State ActiveTab.generator).1.outputImage = none ∧
       (setActiveTab c4State ActiveTab.generator).1.error = none)) ∧
    ((setGenerationMode c4State GenerationMode.PatternOnly).2 = [] ∧
     (setGenerationMode c4State GenerationMode.PatternOnly).1.renderShot = emptyImageState ∧
     (setGenerationMode c4State GenerationMode.PatternOnly).1.pattern = emptyImageState ∧
     (setGenerationMode c4State GenerationMode.PatternOnly).1.material = emptyImageState ∧
     (setGenerationMode c4State GenerationMode.PatternOnly).1.outputImage = none ∧
     (setGenerationMode c4State GenerationMode.PatternOnly).1.error = none) :=
  c4_amended c4State ActiveTab.generator GenerationMode.PatternOnly (by decide) (by decide)

/-! Claim C5. -/

/-- A data URL that parseDataUrl accepts is not the empty string, so the
truthiness test on the stored output image passes whenever parsing does. -/
theorem parseDataUrl_ok_ne_empty (u mime b64 : String)
    (h : parseDataUrl u = Except.ok (mime, b64)) : u.isEmpty = false := by
  cases hu : u.isEmpty with
  | false => rfl
  | true =>
    exfalso
    have hu2 : u = "" := (String.isEmpty_iff u).mp hu
    rw [hu2, show parseDataUrl "" = Except.error "Invalid data URL format" from rfl] at h
    simp at h

/-- Claim C5: a chat turn with a truthy output image on the active generator
tab becomes exactly one editImageWithPrompt invocation carrying the MIME type
and base64 payload parsed from the stored data URL and the message as the
instruction; a turn with no truthy output image or away from the generator
tab becomes exactly one sendMessage call on the persistent chat handle. -/
theorem c5_dispatch (s : AppState) (message chatText : String) (now : Nat)
    (resp : GenerateContentResponse) :
    (∀ u mime b64, s.outputImage = some u → s.activeTab = ActiveTab.generator →
      parseDataUrl u = Except.ok (mime, b64) →
      (handleSendMessage s message now resp chatText).2 =
        [NetworkCall.edit b64 mime message]) ∧
    (∀ hd : Nat, (strTruthy s.outputImage = false ∨ s.activeTab = ActiveTab.extractor) →
      s.chatRef = some hd →
      (handleSendMessage s message now resp chatText).2 =
        [NetworkCall.chatSend hd message]) := by
  constructor
  · intro u mime b64 hout htab hparse
    have hne : u.isEmpty = false := parseDataUrl_ok_ne_empty u mime b64 hparse
    simp only [handleSendMessage, hout, htab, Option.getD_some]
    rw [if_pos (by simp [strTruthy, hout, htab, hne])]
    rw [hparse]
    cases hresp : editParseResponse resp with
    | ok r => cases hr : r.imageUrl <;> simp [hresp, hr]
    | error e => simp [hresp]
  · intro hd hcond hchat
    have hfalse : ¬(strTruthy s.outputImage = true ∧ s.activeTab = ActiveTab.generator) := by
      rcases hcond with hc | hc
      · intro hb
        rw [hc] at hb
        exact Bool.false_ne_true hb.1
      · intro hb
        rw [hc] at hb
        cases hb.2
    simp only [handleSendMessage]
    rw [if_neg (by simpa using hfalse)]
    simp [hchat]

/-- A generator-tab state holding a generated output image. -/
def c5EditState : AppState :=
  { initialAppState with
    chatRef := some 0
    nextChatId := 1
    outputImage := some "data:image/png;base64,XYZ" }

/-- Witness for claim C5: with an output image present on the generator tab
the turn is one edit invocation on the parsed data URL, and from the plain
initial state (no output image, chat handle created) it is one sendMessage
call on the handle. -/
theorem c5_dispatch_witness :
    (handleSendMessage c5EditState "darker" 7 emptyResp "ok").2 =
      [NetworkCall.edit "XYZ" "image/png" "darker"] ∧
    (handleSendMessage (initChatEffect initialAppState) "hi" 7 emptyResp "ok").2 =
      [NetworkCall.chatSend 0 "hi"] :=
  ⟨(c5_dispatch c5EditState "darker" "ok" 7 emptyResp).1
      "data:image/png;base64,XYZ" "image/png" "XYZ" rfl rfl (by decide),
   (c5_dispatch (initChatEffect initialAppState) "hi" "ok" 7 emptyResp).2
      0 (Or.inl (by decide)) (by decide)⟩

/-! Claim C6. -/

/-- A concrete render-shot upload. -/
def rsFile : File := { bytesB64 := "RRRR", type := "image/png" }

/-- A concrete pattern upload. -/
def patFile : File := { bytesB64 := "PPPP", type := "image/jpeg" }

/-- A generator state in PatternOnly mode with render shot and pattern
supplied, surface Flooring, and no dimensions. -/
def c6State : AppState :=
  { initialAppState with
    generationMode := GenerationMode.PatternOnly
    renderShot := { file := some rsFile, previewUrl := some "blob:rs" }
    pattern := { file := some patFile, previewUrl := some "blob:pat" } }

/-- A response whose single candidate carries exactly one inline-image part. -/
def oneImageResp : GenerateContentResponse :=
  { candidates := [ { content := { parts := [
      { inlineData := some { data := "OUT", mimeType := "image/png" }, text := none } ] } } ] }

set_option maxRecDepth 8192 in
/-- Claim C6: submitting PatternOnly with a render shot and a pattern, surface
Flooring and no dimensions issues exactly one request; its prompt contains
the substring "Apply ONLY the visual pattern" and the lower-cased word
"flooring"; its parts are exactly the two supplied images followed by the
prompt; and on a response with one inline-image part the submission stores
that image and sets no error. -/
theorem c6_end_to_end :
    (handleGeneratorSubmit c6State oneImageResp).2 =
      [NetworkCall.generate
        (genRequest (patternOnlyPrompt SurfaceType.Flooring none) [rsFile, patFile])] ∧
    strContains (patternOnlyPrompt SurfaceType.Flooring none)
      "Apply ONLY the visual pattern" = true ∧
    strContains (patternOnlyPrompt SurfaceType.Flooring none) "flooring" = true ∧
    (genRequest (patternOnlyPrompt SurfaceType.Flooring none) [rsFile, patFile]).parts =
      [ { inlineData := some { data := "RRRR", mimeType := "image/png" }, text := none },
        { inlineData := some { data := "PPPP", mimeType := "image/jpeg" }, text := none },
        { inlineData := none, text := some (patternOnlyPrompt SurfaceType.Flooring none) } ] ∧
    (handleGeneratorSubmit c6State oneImageResp).1.outputImage =
      some "data:image/png;base64,OUT" ∧
    (handleGeneratorSubmit c6State oneImageResp).1.error = none := by
  decide

/-! Claim C7. -/

/-- Claim C7: removing an uploaded image clears the generated outputs and
error states, empties the removed slot, and revokes exactly the removed
slot's preview locator. -/
theorem c7_remove_clears (s : AppState) (sl : Slot) (u : String)
    (h : (getSlot s sl).previewUrl = some u) :
    (handleImageRemove s sl).1.outputImage = none ∧
    (handleImageRemove s sl).1.error = none ∧
    (handleImageRemove s sl).1.processedImage = none ∧
    (handleImageRemove s sl).1.processingError = none ∧
    getSlot (handleImageRemove s sl).1 sl = emptyImageState ∧
    (handleImageRemove s sl).2 = [u] := by
  cases sl <;> simp only [getSlot] at h <;>
    simp [handleImageRemove, getSlot, setSlot, h]

/-- Witness for claim C7: removing the populated source image of a concrete
state revokes its locator and clears outputs and errors. -/
theorem c7_remove_clears_witness :
    (handleImageRemove c4State Slot.sourceImage).1.outputImage = none ∧
    (handleImageRemove c4State Slot.sourceImage).1.error = none ∧
    (handleImageRemove c4State Slot.sourceImage).1.processedImage = none ∧
    (handleImageRemove c4State Slot.sourceImage).1.processingError = none ∧
    getSlot (handleImageRemove c4State Slot.sourceImage).1 Slot.sourceImage = emptyImageState ∧
    (handleImageRemove c4State Slot.sourceImage).2 = ["blob:source-preview"] :=
  c7_remove_clears c4State Slot.sourceImage "blob:source-preview" (by decide)

/-! Claim C8. -/

/-- Claim C8: the chat handle is created by the guarded init effect exactly
when none exists (taking the next fresh handle); while a handle exists the
creation code never runs again (the effect is the identity); and a chat turn
routed through the conversational session both uses that same handle and
leaves it in place. -/
theorem c8_single_chat_handle (s : AppState) (hd : Nat)
    (message chatText : String) (now : Nat) (resp : GenerateContentResponse) :
    (s.chatRef = none → (initChatEffect s).chatRef = some s.nextChatId) ∧
    (s.chatRef = some hd → initChatEffect s = s) ∧
    (s.chatRef = some hd →
      (strTruthy s.outputImage = false ∨ s.activeTab = ActiveTab.extractor) →
      (handleSendMessage s message now resp chatText).2 =
        [NetworkCall.chatSend hd message] ∧
      (handleSendMessage s message now resp chatText).1.chatRef = some hd) := by
  refine ⟨fun hn => by simp [initChatEffect, hn], fun hs => by simp [initChatEffect, hs],
    fun hs hcond => ?_⟩
  have hfalse : ¬(strTruthy s.outputImage = true ∧ s.activeTab = ActiveTab.generator) := by
    rcases hcond with hc | hc
    · intro hb
      rw [hc] at hb
      exact Bool.false_ne_true hb.1
    · intro hb
      rw [hc] at hb
      cases hb.2
  constructor
  · simp only [handleSendMessage]
    rw [if_neg (by simpa using hfalse)]
    simp [hs]
  · simp only [handleSendMessage]
    rw [if_neg (by simpa using hfalse)]
    simp [hs]

/-- Witness for claim C8 at the initial state (no handle) and at the state
right after the init effect (handle 0). -/
theorem c8_single_chat_handle_witness :
    (initChatEffect initialAppState).chatRef = some initialAppState.nextChatId ∧
    initChatEffect (initChatEffect initialAppState) = initChatEffect initialAppState ∧
    ((handleSendMessage (initChatEffect initialAppState) "hello" 5 emptyResp "hi there").2 =
       [NetworkCall.chatSend 0 "hello"] ∧
     (handleSendMessage (initChatEffect initialAppState) "hello" 5 emptyResp "hi there").1.chatRef =
       some 0) :=
  ⟨(c8_single_chat_handle initialAppState 0 "hello" "hi there" 5 emptyResp).1 rfl,
   (c8_single_chat_handle (initChatEffect initialAppState) 0 "hello" "hi there" 5 emptyResp).2.1
     (by decide),
   (c8_single_chat_handle (initChatEffect initialAppState) 0 "hello" "hi there" 5 emptyResp).2.2
     (by decide) (Or.inl (by decide))⟩

/-! Claim C9. -/

/-- Claim C9: selecting or removing an image in ANY slot — generator or
extractor — clears the output images and error states of BOTH panels: in
particular, removing the extractor's source image also resets the generator's
output image and error. -/
theorem c9_cross_panel_reset (s : AppState) (sl : Slot) (f : File)
    (objectUrl : String) :
    ((handleImageSelect s sl f objectUrl).1.outputImage = none ∧
     (handleImageSelect s sl f objectUrl).1.error = none ∧
     (handleImageSelect s sl f objectUrl).1.processedImage = none ∧
     (handleImageSelect s sl f objectUrl).1.processingError = none) ∧
    ((handleImageRemove s sl).1.outputImage = none ∧
     (handleImageRemove s sl).1.error = none ∧
     (handleImageRemove s sl).1.processedImage = none ∧
     (handleImageRemove s sl).1.processingError = none) := by
  cases sl <;> simp [handleImageSelect, handleImageRemove, setSlot]

/-! Claim C10. -/

/-- Claim C10: whenever generateSurfaceDesign returns without throwing, the
returned imageUrl — despite its nullable type — is a data URL embedding the
MIME type and base64 bytes of the first inline part of the first response
candidate. The four surface operations delegate to generateSurfaceDesign by
definition, so the same holds for them. -/
theorem c10_ok_imageUrl (prompt : String) (images : List File)
    (resp : GenerateContentResponse) (r : GenResult)
    (h : (generateSurfaceDesign prompt images resp).2 = Except.ok r) :
    ∃ d : InlineData,
      r.imageUrl = some ("data:" ++ d.mimeType ++ ";base64," ++ d.data) ∧
      ∃ cand rest, resp.candidates = cand :: rest ∧
        firstInline cand.content.parts = some d := by
  have hg : genParseResponse resp = Except.ok r := h
  obtain ⟨cands⟩ := resp
  cases hc : cands with
  | nil =>
    rw [hc, show genParseResponse ⟨[]⟩ =
      Except.error "AI failed to generate a new image. Please try a different combination of images or prompt." from rfl] at hg
    simp at hg
  | cons cand rest =>
    subst hc
    have hge : genExtract ⟨cand :: rest⟩ =
        (firstInline cand.content.parts).map dataUrlOf := by
      simp [genExtract, firstImageUrl_eq]
    cases hfi : firstInline cand.content.parts with
    | none =>
      rw [hfi] at hge
      simp only [Option.map_none'] at hge
      rw [show genParseResponse ⟨cand :: rest⟩ =
            Except.error "AI failed to generate a new image. Please try a different combination of images or prompt." by
          simp [genParseResponse, hge]] at hg
      exact absurd hg (by simp)
    | some d =>
      rw [hfi] at hge
      simp only [Option.map_some'] at hge
      have : genParseResponse ⟨cand :: rest⟩ =
          Except.ok { imageUrl := some (dataUrlOf d) } := by
        simp [genParseResponse, hge]
      rw [this] at hg
      have hr : r = { imageUrl := some (dataUrlOf d) } := by
        cases hg
        rfl
      exact ⟨d, by rw [hr]; rfl, cand, rest, rfl, hfi⟩

/-- Witness for claim C10, at the one-image response. -/
theorem c10_ok_imageUrl_witness :
    ∃ d : InlineData,
      (GenResult.mk (some "data:image/png;base64,OUT")).imageUrl =
        some ("data:" ++ d.mimeType ++ ";base64," ++ d.data) ∧
      ∃ cand rest, oneImageResp.candidates = cand :: rest ∧
        firstInline cand.content.parts = some d :=
  c10_ok_imageUrl "a prompt" [] oneImageResp
    (GenResult.mk (some "data:image/png;base64,OUT")) (by decide)

end Bovali
